import Mathlib

set_option maxHeartbeats 1000000

/-!
Shallow embedding of the Flight-Agent-App repository
(`src/flight_agent.py`, `src/main.py`).

JSON bodies that cross the network are modelled with the `Json` inductive
below (numbers are modelled as integers; every numeric value appearing in
the claims is integral).  Python dictionaries are modelled as association
lists with unique keys (lookup returns the first binding).  Python string
operations `strip` / `lower` and the regular expression `\d+` are modelled
on their ASCII fragment, which covers every value the claims mention; they
are implemented over the character list of a `String` so that all
definitions evaluate inside the kernel.
-/

/-- A JSON value, as produced by `response.json()` in the Python sources. -/
inductive Json where
  | null : Json
  | bool : Bool → Json
  | num : Int → Json
  | str : String → Json
  | arr : List Json → Json
  | obj : List (String × Json) → Json

/-- A JSON object / Python dict, keyed by strings. -/
abbrev Record := List (String × Json)

/-- `d.get(k)` on a Python dict: `None` when the key is absent. -/
def dictGet (u : Record) (k : String) : Json :=
  (List.lookup k u).getD Json.null

/-- `d.get(k, default)` on a Python dict. -/
def dictGetD (u : Record) (k : String) (d : Json) : Json :=
  (List.lookup k u).getD d

/-- Python truthiness of a JSON value. -/
def isTruthy : Json → Bool
  | .null => false
  | .bool b => b
  | .num n => n != 0
  | .str s => !s.isEmpty
  | .arr xs => !xs.isEmpty
  | .obj kvs => !kvs.isEmpty

/-- `x or d` in Python: `d` when `x` is falsy. -/
def pyOr (v d : Json) : Json := if isTruthy v then v else d

/-- A single-quote character, used when embedding Python f-strings. -/
def squote : String := (Char.ofNat 39).toString

mutual
/-- Python `repr` of a JSON value (string escaping is not reproduced;
no claim exercises it). -/
def pyRepr : Json → String
  | .null => "None"
  | .bool true => "True"
  | .bool false => "False"
  | .num n => toString n
  | .str s => squote ++ s ++ squote
  | .arr xs => "[" ++ pyReprList xs ++ "]"
  | .obj kvs => "\x7b" ++ pyReprPairs kvs ++ "\x7d"

/-- `repr` of the elements of a Python list, comma separated. -/
def pyReprList : List Json → String
  | [] => ""
  | [x] => pyRepr x
  | x :: y :: xs => pyRepr x ++ ", " ++ pyReprList (y :: xs)

/-- `repr` of the items of a Python dict, comma separated. -/
def pyReprPairs : List (String × Json) → String
  | [] => ""
  | [(k, v)] => squote ++ k ++ squote ++ ": " ++ pyRepr v
  | (k, v) :: p :: kvs => squote ++ k ++ squote ++ ": " ++ pyRepr v ++ ", " ++ pyReprPairs (p :: kvs)
end

/-- Python `str()` of a JSON value. -/
def pyStr : Json → String
  | .str s => s
  | v => pyRepr v

/-- ASCII lower-casing of one character (Python `str.lower`, ASCII fragment). -/
def lowerChar (c : Char) : Char :=
  if 65 ≤ c.toNat && c.toNat ≤ 90 then Char.ofNat (c.toNat + 32) else c

/-- Python `str.lower` (ASCII fragment). -/
def pyLower (s : String) : String := ⟨s.data.map lowerChar⟩

/-- ASCII whitespace, the characters Python `str.strip` removes from the
values the claims mention. -/
def isSpaceChar (c : Char) : Bool :=
  c.toNat == 32 || c.toNat == 9 || c.toNat == 10 || c.toNat == 13 ||
    c.toNat == 11 || c.toNat == 12

/-- Python `str.strip()` (ASCII-whitespace fragment). -/
def pyStrip (s : String) : String :=
  ⟨((s.data.dropWhile isSpaceChar).reverse.dropWhile isSpaceChar).reverse⟩

/-- Boolean prefix test on character lists. -/
def prefixOfB : List Char → List Char → Bool
  | [], _ => true
  | _ :: _, [] => false
  | a :: as, b :: bs => a == b && prefixOfB as bs

/-- Boolean infix test on character lists. -/
def containsSub (needle : List Char) : List Char → Bool
  | [] => needle.isEmpty
  | c :: t => prefixOfB needle (c :: t) || containsSub needle t

/-- Python's `needle in hay` substring test on strings. -/
def strContains (hay needle : String) : Bool :=
  containsSub needle.data hay.data

/-- `re.fullmatch` of the input against the digit pattern used by
`resolve_user_name_to_id` (the ASCII decimal digits `0`-`9`). -/
def isDigits (s : String) : Bool :=
  !s.isEmpty && s.data.all (fun c => 48 ≤ c.toNat && c.toNat ≤ 57)

/-- A Python exception escaping the embedded code (the code under
verification never catches these kinds). -/
inductive PyErr where
  | keyError : String → PyErr
  | attributeError : PyErr
  | typeError : PyErr
  | validationError : PyErr
deriving DecidableEq, Repr

example : pyStr (.num 42) = "42" := rfl
example : pyStr (.str "abc") = "abc" := rfl
example : pyRepr (.arr [.num 1, .str "a"]) = "[1, " ++ squote ++ "a" ++ squote ++ "]" := rfl
example : isDigits "8280" = true := rfl
example : isDigits "a1" = false := rfl
example : strContains "aviv weiss" "viv" = true := rfl
example : pyLower (pyStrip "  AviV ") = "aviv" := rfl

/-! ## `src/flight_agent.py`

The agent's network effects are exogenous to the embedding: each of the two
outbound HTTP calls (the Flight Circle user-directory GET inside
`resolve_user_name_to_id` and the Megiddo `/student_flights` POST inside
`fetch_student_flights`) is represented by an `HttpResult` parameter — the
outcome the `requests` call would produce.  `.exc m` covers every
`requests.exceptions.RequestException` with message `m` (connection errors,
timeouts, `raise_for_status` on a non-2xx status, and JSON-decoding
failures, all of which are `RequestException`s); `.ok body` is a 200
response with parsed JSON `body`. -/

/-- Outcome of one `requests` call made by `src/flight_agent.py`. -/
inductive HttpResult where
  | ok : Json → HttpResult
  | exc : String → HttpResult

/-- Result of `resolve_user_name_to_id`: the declared return type
`str | dict` (every returned dict is `\x7b"error": msg\x7d`). -/
inductive RResult where
  | userId : String → RResult
  | errDict : String → RResult

/-- The environment of one tool execution: `FLIGHT_CIRCLE_API_KEY` from the
process configuration, plus the outcomes of the two outbound calls. -/
structure AgentEnv where
  apiKey : Option String
  lookupNet : HttpResult
  megiddoNet : HttpResult

/-- The `\x7b"error": msg\x7d` dictionary the agent code builds. -/
def errObj (msg : String) : Json := .obj [("error", .str msg)]

/-- Does a JSON value have the `\x7b"error": ...\x7d` shape? -/
def isErrObj : Json → Bool
  | .obj [("error", .str _)] => true
  | _ => false

/-- `src/flight_agent.py:76` — the no-match error message. -/
def notFoundMsg (name : String) : String :=
  "UserID not found via API search for name: " ++ squote ++ name ++ squote ++
    ". No matching user ID found in the API response."

/-- `src/flight_agent.py:68` — the f-string
`f"\x7buser_data.get('first_name', '')\x7d \x7buser_data.get('last_name', '')\x7d".lower()`. -/
def fullNameOf (u : Record) : String :=
  pyLower (pyStr (dictGetD u "first_name" (.str "")) ++ " " ++
    pyStr (dictGetD u "last_name" (.str "")))

/-- `src/flight_agent.py:67-76` — the scan over `search_results["data"]`.
`q` is the already-normalized query, `name_or_id` the raw input (used in the
no-match message).  A non-dict element raises `AttributeError` at
`.get`; a matching element without a `"CustomerID"` key raises `KeyError`
(neither exception class is caught by the surrounding
`except requests.exceptions.RequestException`). -/
def resolveScan (q : String) (name_or_id : String) : List Json → Except PyErr RResult
  | [] => .ok (.errDict (notFoundMsg name_or_id))
  | e :: rest =>
    match e with
    | .obj u =>
      if strContains (fullNameOf u) q then
        match List.lookup "CustomerID" u with
        | some v => .ok (.userId (pyStr v))
        | none => .error (.keyError "CustomerID")
      else resolveScan q name_or_id rest
    | _ => .error .attributeError

/-- `src/flight_agent.py:34-82` — `resolve_user_name_to_id`.  The digit
check comes first; then the configuration check (`not FLIGHT_CIRCLE_API_KEY`
is true for an unset or empty variable); then the network call; then the
body checks `if search_results and isinstance(search_results.get("data"), list)`
(a truthy non-dict body raises `AttributeError` at `.get`). -/
def resolve_user_name_to_id (name_or_id : String) (apiKey : Option String)
    (net : HttpResult) : Except PyErr RResult :=
  if isDigits name_or_id then .ok (.userId name_or_id)
  else if (apiKey.getD "").isEmpty then
    .ok (.errDict "Configuration Missing: FLIGHT_CIRCLE_API_KEY must be set in .env for name lookup.")
  else
    match net with
    | .exc m =>
      .ok (.errDict ("Flight Circle User Lookup API failed. Check API URL/Key. Error: " ++ m))
    | .ok body =>
      if isTruthy body then
        match body with
        | .obj kvs =>
          match List.lookup "data" kvs with
          | some (.arr l) => resolveScan (pyStrip (pyLower name_or_id)) name_or_id l
          | _ => .ok (.errDict "API response structure is invalid or empty.")
        | _ => .error .attributeError
      else .ok (.errDict "API response structure is invalid or empty.")

/-- `src/flight_agent.py:117-147` — `fetch_student_flights`.  The
`user_identifier` argument arrives as a JSON value from the model's
function call; a non-string raises `TypeError` inside `re.fullmatch`.  The
date arguments are only forwarded in the request body, so they do not
affect the observable result (the Megiddo response is the `megiddoNet`
parameter). -/
def fetch_student_flights (user_identifier start_date end_date : Json)
    (env : AgentEnv) : Except PyErr Json :=
  match user_identifier, start_date, end_date with
  | .str name, _, _ =>
    match resolve_user_name_to_id name env.apiKey env.lookupNet with
    | .error e => .error e
    | .ok (.errDict m) => .ok (errObj m)
    | .ok (.userId _) =>
      match env.megiddoNet with
      | .exc m => .ok (errObj ("API Request to Flight Service Failed: " ++ m))
      | .ok body => .ok body
  | _, _, _ => .error .typeError

/-- One tool-invocation request from the model
(`response.function_calls[i]`): a name and an argument dict. -/
structure FunctionCall where
  name : String
  args : List (String × Json)

/-- Keyword binding of `fetch_student_flights(**func_args)`: the call binds
iff the dict holds exactly the three declared parameters (the function has
no defaults and no `**kwargs`); otherwise Python raises `TypeError`. -/
def bindKwargs (args : List (String × Json)) : Option (Json × Json × Json) :=
  if args.length == 3 then
    match List.lookup "user_identifier" args, List.lookup "start_date" args,
        List.lookup "end_date" args with
    | some u, some s, some e => some (u, s, e)
    | _, _, _ => none
  else none

/-- `src/flight_agent.py:181-184` — the Execute dispatch of the agent loop:
only `fetch_student_flights` is recognized; any other name produces the
`Unknown function` error object. -/
def executeTool (fc : FunctionCall) (env : AgentEnv) : Except PyErr Json :=
  if fc.name == "fetch_student_flights" then
    match bindKwargs fc.args with
    | some (u, s, e) => fetch_student_flights u s e env
    | none => .error .typeError
  else .ok (errObj ("Unknown function: " ++ fc.name))

/-- One turn of the conversation `messages` list. -/
inductive ChatTurn where
  | userTurn : String → ChatTurn
  | modelTurn : Json → ChatTurn
  | toolTurn : String → Json → ChatTurn

/-- One model response inside `run_agent_query`'s loop: the content of
`response.candidates[0].content` (opaque here), the list
`response.function_calls`, and `response.text`. -/
structure ModelResponse where
  content : Json
  function_calls : List FunctionCall
  text : String

/-- One iteration of the `while response.function_calls:` loop of
`run_agent_query` (`src/flight_agent.py:173-193`), up to the point where
the next `generate_content` call is issued: if the list is empty the loop
body does not run; otherwise the first call is executed and the model turn
plus one tool turn are appended. -/
def agentIterate (msgs : List ChatTurn) (resp : ModelResponse) (env : AgentEnv) :
    Except PyErr (List ChatTurn) :=
  match resp.function_calls with
  | [] => .ok msgs
  | fc :: _ =>
    match executeTool fc env with
    | .error e => .error e
    | .ok out => .ok (msgs ++ [.modelTurn resp.content, .toolTurn fc.name out])

/-- Number of `tool` turns in a conversation. -/
def countToolTurns (msgs : List ChatTurn) : Nat :=
  msgs.countP (fun t => match t with | .toolTurn _ _ => true | _ => false)

example :
    resolve_user_name_to_id "8280" none (.exc "x") = .ok (.userId "8280") := rfl
example :
    resolve_user_name_to_id "aviv" (some "k")
      (.ok (.obj [("data", .arr [.obj [("first_name", .str "Aviv"),
        ("last_name", .str "Weiss"), ("CustomerID", .num 8280)]])])) =
      .ok (.userId "8280") := rfl
example :
    resolve_user_name_to_id "aviv" (some "k")
      (.ok (.arr [.obj [("first_name", .str "Aviv")]])) =
      .error .attributeError := rfl

/-! ## `src/main.py`

The proxy service's endpoint handlers are modelled from the point where the
upstream 200 response body has been parsed (`raw = resp.json()`): transport
failures and non-200 statuses are raised before that point and are not
involved in any claim about the handlers' own logic except through the
body-shape normalization, which is what the claims address.  A handler
result is `Except PyErr (Except HTTPException α)`: the outer layer is an
uncaught Python exception (`AttributeError` from calling `.get` on a
non-dict element, pydantic validation errors), the inner layer a raised
`fastapi.HTTPException`. -/

/-- A raised `fastapi.HTTPException`. -/
structure HTTPException where
  status_code : Nat
  detail : Json

/-- `src/main.py:122-127` (and the identical inline copies at lines
301-306 and 363-368): accept either a bare list body or a dict with a
`"data"` key holding the list; anything else is rejected. -/
def normalizeBody (raw : Json) : Option (List Json) :=
  let data :=
    match raw with
    | .obj kvs =>
      match List.lookup "data" kvs with
      | some d => d
      | none => raw
    | _ => raw
  match data with
  | .arr l => some l
  | _ => none

/-- The body shapes `normalizeBody` accepts: a bare list, or an object
whose `data` field is a list. -/
def isListShaped : Json → Bool
  | .arr _ => true
  | .obj kvs =>
    match List.lookup "data" kvs with
    | some (.arr _) => true
    | _ => false
  | _ => false

/-- `src/main.py:128-134` — the `invalid_response_format` detail of the
users endpoint family. -/
def usersShapeDetail : Json :=
  .obj [("error", .str "invalid_response_format"),
    ("message", .str ("Expected " ++ squote ++ "data" ++ squote ++
      " to be a list of users from Flight Circle"))]

/-- `src/main.py:119-136` — the body-processing tail of
`fetch_flightcircle_users`. -/
def fetch_flightcircle_users (raw : Json) : Except HTTPException (List Json) :=
  match normalizeBody raw with
  | some l => .ok l
  | none => .error ⟨500, usersShapeDetail⟩

/-- `src/main.py:139-149` — `extract_user_id`'s candidate key list. -/
def candidate_keys : List String := ["CustomerID", "customer_id", "customerId", "id"]

/-- The sentinel test `value in (None, "", 0)` of `extract_user_id`.
Python's `==` identifies `False` with `0`, so the boolean `false` is also a
sentinel; `dict.get` yields `None` both for an absent key and an explicit
null. -/
def isSentinel : Json → Bool
  | .null => true
  | .str s => s.isEmpty
  | .num n => n == 0
  | .bool b => !b
  | _ => false

/-- The loop of `extract_user_id` over the candidate keys. -/
def extractGo (user : Record) : List String → Option String
  | [] => none
  | k :: ks =>
    if !isSentinel (dictGet user k) then some (pyStr (dictGet user k))
    else extractGo user ks

/-- `src/main.py:139-149` — `extract_user_id`. -/
def extract_user_id (user : Record) : Option String :=
  extractGo user candidate_keys

/-- Modelled from the spec's words (§4.5): return the stringified value of
the first field among `CustomerID`, `customer_id`, `customerId`, `id`
whose value is none of: absent, the empty string, the number zero
(Python's `==` makes the boolean false a form of the number zero). -/
def extract_user_id_spec (user : Record) : Option String :=
  (candidate_keys.find? (fun k => !isSentinel (dictGet user k))).map
    (fun k => pyStr (dictGet user k))

/-- `src/main.py:152-159` — `build_user_name`.  `(user.get(k) or "").strip()`
yields `""` for a falsy value, strips a string, and raises
`AttributeError` for any truthy non-string. -/
def stripAfterOr (v : Json) : Except PyErr String :=
  match pyOr v (.str "") with
  | .str s => .ok (pyStrip s)
  | _ => .error .attributeError

/-- `src/main.py:152-159` — `build_user_name`. -/
def build_user_name (u : Record) : Except PyErr String := do
  let first ← stripAfterOr (dictGet u "first_name")
  let last ← stripAfterOr (dictGet u "last_name")
  let full := pyStrip (first ++ " " ++ last)
  .ok (if !full.isEmpty then full
    else if !first.isEmpty then first
    else if !last.isEmpty then last
    else "")

/-- The pydantic models of `src/main.py` (`User`, `UserIdResponse`,
`Reservation`, `Flight`), with `Optional[str]` as `Option String`. -/
structure User where
  id : String
  name : String
  email : Option String
  phone : Option String

/-- `src/main.py:45-49` — `UserIdResponse`. -/
structure UserIdResponse where
  user_id : String
  name : Option String
  email : Option String

/-- `src/main.py:51-58` — `Reservation` (`end` is a Lean keyword, hence
`end_`). -/
structure Reservation where
  id : String
  user_id : String
  resource_name : Option String
  start : String
  end_ : String
  status : Option String

/-- `src/main.py:60-66` — `Flight`. -/
structure Flight where
  id : String
  resource_name : String
  start : String
  end_ : String
  instructor_name : Option String
  user_name : Option String

/-- pydantic validation of an `Optional[str]` field: `None` and strings
pass, anything else raises a validation error. -/
def asOptStr : Json → Except PyErr (Option String)
  | .null => .ok none
  | .str s => .ok (some s)
  | _ => .error .validationError

/-- pydantic validation of a required `str` field. -/
def asStr : Json → Except PyErr String
  | .str s => .ok s
  | _ => .error .validationError

/-- `src/main.py:186-203` — the match-collecting loop of
`get_user_by_name`: build the canonical name, keep the user if the
normalized query is a substring of its lower-cased form, with the id
defaulted to `""` (`extract_user_id(u) or ""`). -/
def byNameCollect (nq : String) : List Json → Except PyErr (List User)
  | [] => .ok []
  | e :: rest =>
    match e with
    | .obj u => do
      let full ← build_user_name u
      if strContains (pyLower full) nq then
        let em ← asOptStr (dictGet u "email")
        let ph ← asOptStr (dictGet u "phone")
        let tail ← byNameCollect nq rest
        .ok (⟨(extract_user_id u).getD "", full, em, ph⟩ :: tail)
      else byNameCollect nq rest
    | _ => .error .attributeError

/-- `src/main.py:178-203` — `GET /users/by-name`, from the parsed upstream
body `raw` on. -/
def get_user_by_name (name : String) (raw : Json) :
    Except PyErr (Except HTTPException (List User)) :=
  match fetch_flightcircle_users raw with
  | .error h => .ok (.error h)
  | .ok data =>
    match byNameCollect (pyLower (pyStrip name)) data with
    | .error e => .error e
    | .ok users => .ok (.ok users)

/-- `(u.get("email") or "").strip().lower()` (`src/main.py:226`). -/
def emailKeyOf (u : Record) : Except PyErr String :=
  (stripAfterOr (dictGet u "email")).map pyLower

/-- `src/main.py:224-229` — the email-matching loop of
`get_user_id_by_username`. -/
def byUsernameMatches (nu : String) : List Json → Except PyErr (List Record)
  | [] => .ok []
  | e :: rest =>
    match e with
    | .obj u => do
      let em ← emailKeyOf u
      let tail ← byUsernameMatches nu rest
      if nu == em then .ok (u :: tail) else .ok tail
    | _ => .error .attributeError

/-- `src/main.py:231-235` — the 404 detail. -/
def userNotFoundDetail (username : String) : Json :=
  .obj [("error", .str "user_not_found"),
    ("message", .str ("No user found for username " ++ squote ++ username ++ squote))]

/-- `src/main.py:237-241` — the 409 detail. -/
def multipleUsersDetail (username : String) : Json :=
  .obj [("error", .str "multiple_users"),
    ("message", .str ("Multiple users found for username " ++ squote ++ username ++ squote))]

/-- `src/main.py:246-254` — the 500 detail, carrying
`list(user.keys())`. -/
def missingUserIdDetail (u : Record) : Json :=
  .obj [("error", .str "missing_user_id"),
    ("message", .str "User found by username but no ID field was detected"),
    ("raw_user_keys", .arr (u.map (fun kv => Json.str kv.1)))]

/-- `src/main.py:216-260` — `GET /users/by-username`, from the parsed
upstream body `raw` on.  `if not user_id:` treats both `None` and `""` as
missing. -/
def get_user_id_by_username (username : String) (raw : Json) :
    Except PyErr (Except HTTPException UserIdResponse) :=
  match fetch_flightcircle_users raw with
  | .error h => .ok (.error h)
  | .ok data =>
    match byUsernameMatches (pyLower (pyStrip username)) data with
    | .error e => .error e
    | .ok [] => .ok (.error ⟨404, userNotFoundDetail username⟩)
    | .ok (u :: rest) =>
      if rest.isEmpty then
        match extract_user_id u with
        | none => .ok (.error ⟨500, missingUserIdDetail u⟩)
        | some uid =>
          if uid.isEmpty then .ok (.error ⟨500, missingUserIdDetail u⟩)
          else
            match build_user_name u, asOptStr (dictGet u "email") with
            | .ok nm, .ok em => .ok (.ok ⟨uid, some nm, em⟩)
            | .error e, _ => .error e
            | .ok _, .error e => .error e
      else .ok (.error ⟨409, multipleUsersDetail username⟩)

/-- `src/main.py:307-310` — the `invalid_response_format` detail of the
reservations endpoint. -/
def reservationsShapeDetail : Json :=
  .obj [("error", .str "invalid_response_format"),
    ("message", .str "Expected a list of reservations")]

/-- `src/main.py:313-323` — mapping one upstream element to a
`Reservation` (non-dict elements raise at `.get`; `str()` is applied to
`id` and `user_id`, pydantic validates the rest). -/
def buildReservation (e : Json) : Except PyErr Reservation :=
  match e with
  | .obj r => do
    let rn ← asOptStr (dictGet r "resource_name")
    let st ← asStr (dictGet r "start")
    let en ← asStr (dictGet r "end")
    let sts ← asOptStr (dictGet r "status")
    .ok ⟨pyStr (dictGet r "id"), pyStr (dictGet r "user_id"), rn, st, en, sts⟩
  | _ => .error .attributeError

/-- `src/main.py:270-325` — `GET /reservations/by-user`, from the parsed
upstream body `raw` on (the query parameters only shape the upstream
request). -/
def get_reservations_by_user (raw : Json) :
    Except PyErr (Except HTTPException (List Reservation)) :=
  match normalizeBody raw with
  | none => .ok (.error ⟨500, reservationsShapeDetail⟩)
  | some l =>
    match l.mapM buildReservation with
    | .error e => .error e
    | .ok rs => .ok (.ok rs)

/-- `src/main.py:369-372` — the `invalid_response_format` detail of the
flights endpoint. -/
def flightsShapeDetail : Json :=
  .obj [("error", .str "invalid_response_format"),
    ("message", .str "Expected a list of flights")]

/-- `src/main.py:376-385` — mapping one upstream element to a `Flight`
(`resource_name=f.get("resource_name") or ""`). -/
def buildFlight (e : Json) : Except PyErr Flight :=
  match e with
  | .obj f => do
    let rn ← asStr (pyOr (dictGet f "resource_name") (.str ""))
    let st ← asStr (dictGet f "start")
    let en ← asStr (dictGet f "end")
    let inm ← asOptStr (dictGet f "instructor_name")
    let unm ← asOptStr (dictGet f "user_name")
    .ok ⟨pyStr (dictGet f "id"), rn, st, en, inm, unm⟩
  | _ => .error .attributeError

/-- `src/main.py:335-387` — `GET /flights/by-date`, from the parsed
upstream body `raw` on. -/
def get_flights_by_date (raw : Json) :
    Except PyErr (Except HTTPException (List Flight)) :=
  match normalizeBody raw with
  | none => .ok (.error ⟨500, flightsShapeDetail⟩)
  | some l =>
    match l.mapM buildFlight with
    | .error e => .error e
    | .ok fs => .ok (.ok fs)

example : extract_user_id [("CustomerID", .str "77"), ("id", .str "1")] = some "77" := rfl
example : extract_user_id [("CustomerID", .num 0), ("id", .str "42")] = some "42" := rfl
example : build_user_name [("first_name", .str " Aviv "), ("last_name", .str " Weiss ")] =
  .ok "Aviv Weiss" := rfl

/-! ## Auxiliary predicates and specification-side functions used by the
claim theorems. -/

/-- The `data`-wrapped body shape the agent's lookup parser expects. -/
def dataBody (l : List Json) : Json := .obj [("data", .arr l)]

/-- A data-list element the agent's scan passes over without raising:
a dict that either does not name-match `q` or carries a `CustomerID` key. -/
def scanElemOk (q : String) : Json → Bool
  | .obj u => !strContains (fullNameOf u) q || (List.lookup "CustomerID" u).isSome
  | _ => false

/-- A data-list element that is a dict and does not name-match `q`. -/
def nonMatchObj (q : String) : Json → Bool
  | .obj u => !strContains (fullNameOf u) q
  | _ => false

/-- A lookup-call outcome on which `resolve_user_name_to_id` cannot raise:
an exception (caught and wrapped), a falsy body, a dict body without a
data list, or a dict body whose data list only holds scan-safe elements. -/
def lookupBodyOk (q : String) : HttpResult → Bool
  | .exc _ => true
  | .ok body =>
    if isTruthy body then
      match body with
      | .obj kvs =>
        match List.lookup "data" kvs with
        | some (.arr l) => l.all (scanElemOk q)
        | _ => true
      | _ => false
    else true

/-- A tool invocation on which the Execute step cannot raise: any unknown
tool name, or a recognized call whose kwargs bind with a string
`user_identifier` and whose lookup outcome is scan-safe for it. -/
def wellFormedExec (fc : FunctionCall) (env : AgentEnv) : Bool :=
  fc.name != "fetch_student_flights" ||
    (match bindKwargs fc.args with
    | some (.str s, _, _) => lookupBodyOk (pyStrip (pyLower s)) env.lookupNet
    | _ => false)

/-- A field value on which `(v or "").strip()` does not raise: a string or
any falsy value. -/
def strOrFalsy : Json → Bool
  | .str _ => true
  | v => !(isTruthy v)

/-- A field value pydantic accepts for `Optional[str]`: absent/null or a
string. -/
def strOrNull : Json → Bool
  | .str _ => true
  | .null => true
  | _ => false

/-- A user record on which the user endpoints of `src/main.py` complete
without a Python-level exception. -/
def wellTypedUser (u : Record) : Bool :=
  strOrFalsy (dictGet u "first_name") && strOrFalsy (dictGet u "last_name") &&
    strOrNull (dictGet u "email") && strOrNull (dictGet u "phone")

/-- A data-list element that is a well-typed user dict. -/
def elemWellTyped : Json → Bool
  | .obj u => wellTypedUser u
  | _ => false

/-- Every element of the upstream user list is a well-typed user dict. -/
def usersWellTyped (l : List Json) : Bool := l.all elemWellTyped

/-- Total form of `(v or "").strip()` on a `strOrFalsy` value. -/
def strOrEmptyTrim (v : Json) : String :=
  match v with
  | .str s => pyStrip s
  | _ => ""

/-- Total form of `build_user_name` on a well-typed record. -/
def buildNameD (u : Record) : String :=
  let first := strOrEmptyTrim (dictGet u "first_name")
  let last := strOrEmptyTrim (dictGet u "last_name")
  let full := pyStrip (first ++ " " ++ last)
  if !full.isEmpty then full
  else if !first.isEmpty then first
  else if !last.isEmpty then last
  else ""

/-- Total form of `(u.get("email") or "").strip().lower()` on a well-typed
record. -/
def emailNormD (u : Record) : String := pyLower (strOrEmptyTrim (dictGet u "email"))

/-- Total form of the validated `email` response field on a well-typed
record. -/
def emailOptD (u : Record) : Option String :=
  match dictGet u "email" with
  | .str s => some s
  | _ => none

/-- Total form of the validated `phone` response field on a well-typed
record. -/
def phoneOptD (u : Record) : Option String :=
  match dictGet u "phone" with
  | .str s => some s
  | _ => none

/-- The records of the user list whose normalized email equals the
normalized username — the `matching_users` list of
`get_user_id_by_username`. -/
def matchedRecords (nu : String) (l : List Json) : List Record :=
  l.filterMap (fun e =>
    match e with
    | .obj u => if nu == emailNormD u then some u else none
    | _ => none)

/-- The `User` entry `get_user_by_name` produces for one matching element,
`none` for a non-match. -/
def nameSpecFn (nq : String) (e : Json) : Option User :=
  match e with
  | .obj u =>
    if strContains (pyLower (buildNameD u)) nq then
      some ⟨(extract_user_id u).getD "", buildNameD u, emailOptD u, phoneOptD u⟩
    else none
  | _ => none

/-! ## Helper lemmas -/

theorem pyStrip_empty : pyStrip "" = "" := rfl

theorem stripAfterOr_wt (v : Json) (h : strOrFalsy v = true) :
    stripAfterOr v = .ok (strOrEmptyTrim v) := by
  cases v <;> simp_all [stripAfterOr, strOrFalsy, strOrEmptyTrim, pyOr, isTruthy,
    pyStrip_empty]
  case str s =>
    by_cases hs : s.isEmpty <;> simp [hs]
    rw [String.isEmpty_iff] at hs
    simp [hs, pyStrip_empty]

theorem strOrNull_strOrFalsy (v : Json) (h : strOrNull v = true) :
    strOrFalsy v = true := by
  cases v <;> simp_all [strOrNull, strOrFalsy, isTruthy]

theorem build_user_name_wt (u : Record) (h1 : strOrFalsy (dictGet u "first_name") = true)
    (h2 : strOrFalsy (dictGet u "last_name") = true) :
    build_user_name u = .ok (buildNameD u) := by
  unfold build_user_name
  rw [stripAfterOr_wt _ h1, stripAfterOr_wt _ h2]
  rfl

theorem emailKeyOf_wt (u : Record) (h : strOrNull (dictGet u "email") = true) :
    emailKeyOf u = .ok (emailNormD u) := by
  unfold emailKeyOf
  rw [stripAfterOr_wt _ (strOrNull_strOrFalsy _ h)]
  rfl

theorem asOptStr_email_wt (u : Record) (h : strOrNull (dictGet u "email") = true) :
    asOptStr (dictGet u "email") = .ok (emailOptD u) := by
  cases hv : dictGet u "email" <;> simp_all [strOrNull, asOptStr, emailOptD]

theorem asOptStr_phone_wt (u : Record) (h : strOrNull (dictGet u "phone") = true) :
    asOptStr (dictGet u "phone") = .ok (phoneOptD u) := by
  cases hv : dictGet u "phone" <;> simp_all [strOrNull, asOptStr, phoneOptD]

theorem resolveScan_no_match (q n : String) (l : List Json)
    (h : l.all (nonMatchObj q) = true) :
    resolveScan q n l = .ok (.errDict (notFoundMsg n)) := by
  induction l with
  | nil => rfl
  | cons e rest ih =>
    simp only [List.all_cons, Bool.and_eq_true] at h
    obtain ⟨he, hrest⟩ := h
    cases e <;> simp_all [nonMatchObj, resolveScan]

theorem resolveScan_first_match (q n : String) (pre : List Json) (u : Record)
    (v : Json) (rest : List Json) (hpre : pre.all (nonMatchObj q) = true)
    (hm : strContains (fullNameOf u) q = true)
    (hk : List.lookup "CustomerID" u = some v) :
    resolveScan q n (pre ++ .obj u :: rest) = .ok (.userId (pyStr v)) := by
  induction pre with
  | nil => simp [resolveScan, hm, hk]
  | cons e pre ih =>
    simp only [List.all_cons, Bool.and_eq_true] at hpre
    obtain ⟨he, hpre⟩ := hpre
    cases e <;> simp_all [nonMatchObj, resolveScan]

theorem resolveScan_total (q n : String) (l : List Json)
    (h : l.all (scanElemOk q) = true) :
    ∃ r, resolveScan q n l = .ok r := by
  induction l with
  | nil => exact ⟨_, rfl⟩
  | cons e rest ih =>
    simp only [List.all_cons, Bool.and_eq_true] at h
    obtain ⟨he, hrest⟩ := h
    cases e with
    | obj u =>
      simp only [scanElemOk, Bool.or_eq_true, Bool.not_eq_true'] at he
      by_cases hm : strContains (fullNameOf u) q
      · have hk : (List.lookup "CustomerID" u).isSome = true := by
          rcases he with he | he
          · rw [he] at hm
            exact absurd hm (by simp)
          · exact he
        obtain ⟨v, hv⟩ := Option.isSome_iff_exists.mp hk
        exact ⟨.userId (pyStr v), by simp [resolveScan, hm, hv]⟩
      · have hr := ih hrest
        simpa [resolveScan, hm] using hr
    | null => simp [scanElemOk] at he
    | bool b => simp [scanElemOk] at he
    | num m => simp [scanElemOk] at he
    | str s => simp [scanElemOk] at he
    | arr xs => simp [scanElemOk] at he

theorem resolve_total (s : String) (key : Option String) (net : HttpResult)
    (h : lookupBodyOk (pyStrip (pyLower s)) net = true) :
    ∃ r, resolve_user_name_to_id s key net = .ok r := by
  unfold resolve_user_name_to_id
  by_cases hd : isDigits s <;> simp [hd]
  by_cases hk : (key.getD "").isEmpty <;> simp [hk]
  cases net with
  | exc m => exact ⟨_, rfl⟩
  | ok body =>
    simp only [lookupBodyOk] at h
    by_cases ht : isTruthy body <;> simp [ht] at h ⊢
    cases body with
    | obj kvs =>
      cases hl : List.lookup "data" kvs with
      | none => simp [hl]
      | some d =>
        cases d with
        | arr l =>
          simp only [hl] at h ⊢
          exact resolveScan_total _ _ _ h
        | null => simp [hl]
        | bool b => simp [hl]
        | num m => simp [hl]
        | str t => simp [hl]
        | obj o => simp [hl]
    | null => simp [isTruthy] at ht
    | bool b => exact absurd h (by simp)
    | num m => exact absurd h (by simp)
    | str t => exact absurd h (by simp)
    | arr xs => exact absurd h (by simp)

theorem byUsernameMatches_wt (nu : String) (l : List Json)
    (h : usersWellTyped l = true) :
    byUsernameMatches nu l = .ok (matchedRecords nu l) := by
  induction l with
  | nil => rfl
  | cons e rest ih =>
    simp only [usersWellTyped, List.all_cons, Bool.and_eq_true] at h
    obtain ⟨he, hrest⟩ := h
    cases e with
    | obj u =>
      simp only [elemWellTyped, wellTypedUser, Bool.and_eq_true] at he
      obtain ⟨⟨⟨hf, hl⟩, hm⟩, hp⟩ := he
      have ihr := ih (by simpa [usersWellTyped] using hrest)
      simp only [byUsernameMatches, emailKeyOf_wt _ hm, ihr, matchedRecords,
        List.filterMap_cons, Bind.bind, Except.bind]
      by_cases hq : nu = emailNormD u <;> simp [hq, matchedRecords]
    | null => simp [elemWellTyped] at he
    | bool b => simp [elemWellTyped] at he
    | num m => simp [elemWellTyped] at he
    | str t => simp [elemWellTyped] at he
    | arr xs => simp [elemWellTyped] at he

theorem byNameCollect_wt (nq : String) (l : List Json)
    (h : usersWellTyped l = true) :
    byNameCollect nq l = .ok (l.filterMap (nameSpecFn nq)) := by
  induction l with
  | nil => rfl
  | cons e rest ih =>
    simp only [usersWellTyped, List.all_cons, Bool.and_eq_true] at h
    obtain ⟨he, hrest⟩ := h
    cases e with
    | obj u =>
      simp only [elemWellTyped, wellTypedUser, Bool.and_eq_true] at he
      obtain ⟨⟨⟨hf, hl⟩, hm⟩, hp⟩ := he
      have ihr := ih (by simpa [usersWellTyped] using hrest)
      simp only [byNameCollect, build_user_name_wt _ hf hl, ihr, nameSpecFn,
        List.filterMap_cons, asOptStr_email_wt _ hm, asOptStr_phone_wt _ hp,
        Bind.bind, Except.bind]
      by_cases hq : strContains (pyLower (buildNameD u)) nq = true <;>
        simp [hq, nameSpecFn]
    | null => simp [elemWellTyped] at he
    | bool b => simp [elemWellTyped] at he
    | num m => simp [elemWellTyped] at he
    | str t => simp [elemWellTyped] at he
    | arr xs => simp [elemWellTyped] at he

theorem matchedRecords_mem (nu : String) (l : List Json) (u : Record)
    (h : u ∈ matchedRecords nu l) : Json.obj u ∈ l := by
  simp only [matchedRecords, List.mem_filterMap] at h
  obtain ⟨e, hel, hfe⟩ := h
  cases e <;> simp at hfe
  case obj w =>
    obtain ⟨hnu, hw⟩ := hfe
    exact hw ▸ hel

theorem normalizeBody_arr (l : List Json) : normalizeBody (.arr l) = some l := rfl

theorem normalizeBody_data (l : List Json) :
    normalizeBody (.obj [("data", .arr l)]) = some l := rfl

theorem normalizeBody_none (raw : Json) (h : isListShaped raw = false) :
    normalizeBody raw = none := by
  cases raw with
  | obj kvs =>
    simp only [isListShaped] at h
    simp only [normalizeBody]
    cases hl : List.lookup "data" kvs with
    | none => simp [hl]
    | some d =>
      cases d <;> simp_all [hl]
  | arr l => simp [isListShaped] at h
  | null => rfl
  | bool b => rfl
  | num m => rfl
  | str t => rfl

/-! ## Claim theorems -/

/-- Claim C2 (confirmed): for every input string consisting of one or more
decimal digits and nothing else, `resolve_user_name_to_id` returns that
string unchanged, for every configuration state (`apiKey`) and
independently of the network (the result does not depend on the `net`
parameter, so no network call can influence it) — the digit check precedes
all strategy-specific logic. -/
theorem claim_C2_digit_passthrough (s : String) (h : isDigits s = true)
    (apiKey : Option String) (net : HttpResult) :
    resolve_user_name_to_id s apiKey net = .ok (.userId s) := by
  simp [resolve_user_name_to_id, h]

/-- Witness for C2 at the spec's own example `"8280"`, with no API key
configured and an unreachable network. -/
theorem claim_C2_witness :
    isDigits "8280" = true ∧
      resolve_user_name_to_id "8280" none (.exc "unreachable") =
        .ok (.userId "8280") :=
  ⟨rfl, claim_C2_digit_passthrough "8280" rfl none (.exc "unreachable")⟩

/-- Claim C3 (confirmed): `extract_user_id` checks `CustomerID`,
`customer_id`, `customerId`, `id` in exactly that order and returns the
stringified value of the first whose value is not a sentinel (absent,
empty string, or the number zero — which by Python `==` also covers the
boolean false); if none qualifies it returns `none`.  In particular a
record with `CustomerID="77"` and `id="1"` yields `"77"`, and a record
with `CustomerID=0` and `id="42"` yields `"42"`. -/
theorem claim_C3_extract_user_id :
    (∀ u : Record, extract_user_id u = extract_user_id_spec u) ∧
      extract_user_id [("CustomerID", .str "77"), ("id", .str "1")] = some "77" ∧
      extract_user_id [("CustomerID", .num 0), ("id", .str "42")] = some "42" := by
  refine ⟨fun u => ?_, rfl, rfl⟩
  by_cases h1 : isSentinel (dictGet u "CustomerID") <;>
    by_cases h2 : isSentinel (dictGet u "customer_id") <;>
    by_cases h3 : isSentinel (dictGet u "customerId") <;>
    by_cases h4 : isSentinel (dictGet u "id") <;>
    simp [extract_user_id, extract_user_id_spec, extractGo, candidate_keys,
      List.find?, h1, h2, h3, h4]

/-- Claim C6 (confirmed): one iteration of the agent loop executes only the
first entry of `response.function_calls` — the result is the same whatever
the later entries are — and, when the tool executes without raising,
appends exactly the model turn and one tool turn carrying its output. -/
theorem claim_C6_first_call_only (msgs : List ChatTurn) (c : Json)
    (fc : FunctionCall) (rest rest' : List FunctionCall) (t t' : String)
    (env : AgentEnv) :
    agentIterate msgs ⟨c, fc :: rest, t⟩ env =
        agentIterate msgs ⟨c, fc :: rest', t'⟩ env ∧
      ∀ out, executeTool fc env = .ok out →
        agentIterate msgs ⟨c, fc :: rest, t⟩ env =
            .ok (msgs ++ [.modelTurn c, .toolTurn fc.name out]) ∧
          countToolTurns (msgs ++ [.modelTurn c, .toolTurn fc.name out]) =
            countToolTurns msgs + 1 := by
  refine ⟨rfl, fun out hout => ⟨?_, ?_⟩⟩
  · simp [agentIterate, hout]
  · simp [countToolTurns, List.countP_append]

/-- Witness for C6: a response carrying two simultaneous tool requests
executes only the first (an unknown name, so its structured error is the
output) and produces exactly one tool turn. -/
theorem claim_C6_witness :
    agentIterate [] ⟨.null, [⟨"foo", []⟩, ⟨"bar", []⟩], "t"⟩
        ⟨none, .exc "e", .exc "e"⟩ =
      .ok [.modelTurn .null, .toolTurn "foo" (errObj "Unknown function: foo")] ∧
    countToolTurns [.modelTurn .null, .toolTurn "foo" (errObj "Unknown function: foo")] = 1 := by
  have h := claim_C6_first_call_only [] .null ⟨"foo", []⟩ [⟨"bar", []⟩] [] "t" "t"
    ⟨none, .exc "e", .exc "e"⟩
  exact ⟨(h.2 (errObj "Unknown function: foo") rfl).1,
    (h.2 (errObj "Unknown function: foo") rfl).2⟩

/-- Claim C7 (confirmed): a tool request whose name is not
`fetch_student_flights` yields the tool result
`\x7b"error": "Unknown function: <name>"\x7d`, which is appended to the
conversation as a tool turn, and the iteration does not raise. -/
theorem claim_C7_unknown_tool (fc : FunctionCall) (env : AgentEnv)
    (h : fc.name ≠ "fetch_student_flights") (msgs : List ChatTurn) (c : Json)
    (rest : List FunctionCall) (t : String) :
    executeTool fc env = .ok (errObj ("Unknown function: " ++ fc.name)) ∧
      agentIterate msgs ⟨c, fc :: rest, t⟩ env =
        .ok (msgs ++ [.modelTurn c,
          .toolTurn fc.name (errObj ("Unknown function: " ++ fc.name))]) := by
  have hb : (fc.name == "fetch_student_flights") = false := by
    simp [h]
  constructor
  · simp [executeTool, hb]
  · simp [agentIterate, executeTool, hb]

/-- Witness for C7 at the concrete unknown tool name `"do_magic"`. -/
theorem claim_C7_witness :
    executeTool ⟨"do_magic", []⟩ ⟨none, .exc "e", .exc "e"⟩ =
        .ok (errObj "Unknown function: do_magic") ∧
      agentIterate [] ⟨.null, [⟨"do_magic", []⟩], "t"⟩ ⟨none, .exc "e", .exc "e"⟩ =
        .ok [.modelTurn .null, .toolTurn "do_magic" (errObj "Unknown function: do_magic")] :=
  claim_C7_unknown_tool ⟨"do_magic", []⟩ ⟨none, .exc "e", .exc "e"⟩
    (by simp) [] .null [] "t"

/-- Counterexample to claim C9 as stated: a 200 response whose body is a
bare non-empty JSON list containing a user whose name matches the query
does not produce the error dict
`\x7b"error": "API response structure is invalid or empty."\x7d` — it
raises `AttributeError` (`list` has no `.get`), which the
`except requests.exceptions.RequestException` handler does not catch. -/
theorem claim_C9_counterexample :
    resolve_user_name_to_id "aviv" (some "k")
        (.ok (.arr [.obj [("first_name", .str "Aviv"), ("last_name", .str "Weiss"),
          ("CustomerID", .num 8280)]])) =
      .error .attributeError ∧
    resolve_user_name_to_id "aviv" (some "k")
        (.ok (.arr [.obj [("first_name", .str "Aviv"), ("last_name", .str "Weiss"),
          ("CustomerID", .num 8280)]])) ≠
      .ok (.errDict "API response structure is invalid or empty.") := by
  refine ⟨rfl, fun h => ?_⟩
  rw [show resolve_user_name_to_id "aviv" (some "k")
      (.ok (.arr [.obj [("first_name", .str "Aviv"), ("last_name", .str "Weiss"),
        ("CustomerID", .num 8280)]])) = Except.error PyErr.attributeError from rfl] at h
  exact nomatch h

/-- Claim C9 (corrected): with a non-numeric query and a configured API
key, a bare-list 200 body yields the invalid-structure error dict only when
the list is empty (an empty list is falsy, so the
`if search_results and ...` guard falls through to the error return); a
non-empty bare list is truthy and raises `AttributeError` at
`search_results.get("data")` instead, for every list content. -/
theorem claim_C9_amended (q key : String) (h1 : isDigits q = false)
    (h2 : key.isEmpty = false) :
    resolve_user_name_to_id q (some key) (.ok (.arr [])) =
        .ok (.errDict "API response structure is invalid or empty.") ∧
      ∀ x xs, resolve_user_name_to_id q (some key) (.ok (.arr (x :: xs))) =
        .error .attributeError := by
  constructor
  · simp [resolve_user_name_to_id, h1, h2, isTruthy]
  · intro x xs
    simp [resolve_user_name_to_id, h1, h2, isTruthy]

/-- Witness for C9 (amended) at the query `"aviv"` with key `"k"`: the
empty bare list yields the error dict and a singleton bare list raises. -/
theorem claim_C9_witness :
    resolve_user_name_to_id "aviv" (some "k") (.ok (.arr [])) =
        .ok (.errDict "API response structure is invalid or empty.") ∧
      resolve_user_name_to_id "aviv" (some "k") (.ok (.arr [.num 1])) =
        .error .attributeError :=
  ⟨(claim_C9_amended "aviv" "k" rfl rfl).1,
    (claim_C9_amended "aviv" "k" rfl rfl).2 (.num 1) []⟩

/-- Counterexample to claim C5 as stated: the agent's direct lookup does
not apply the §4.5 field-name fallback list.  A data list whose first
name-matching record has an `id` field (which `extract_user_id` would
select as `"42"`) but no `CustomerID` raises `KeyError` instead of
returning `"42"`. -/
theorem claim_C5_counterexample :
    resolve_user_name_to_id "aviv" (some "k")
        (.ok (dataBody [.obj [("first_name", .str "Aviv"), ("last_name", .str "Weiss"),
          ("id", .str "42")]])) =
      .error (.keyError "CustomerID") ∧
    extract_user_id [("first_name", .str "Aviv"), ("last_name", .str "Weiss"),
        ("id", .str "42")] =
      some "42" :=
  ⟨rfl, rfl⟩

/-- Claim C5 (corrected): for a non-numeric identifier and a configured
key, the direct-lookup strategy linearly scans the data list for the first
user whose lower-cased `"first last"` name contains the lower-cased
trimmed query as a substring; on that first match it returns the
stringified value of the record's `CustomerID` field only (no §4.5
fallback — a matching record without `CustomerID` raises `KeyError`);
scanning the whole list without a match yields a structured error naming
the supplied identifier. -/
theorem claim_C5_amended (q key : String) (l : List Json)
    (h1 : isDigits q = false) (h2 : key.isEmpty = false) :
    (l.all (nonMatchObj (pyStrip (pyLower q))) = true →
      resolve_user_name_to_id q (some key) (.ok (dataBody l)) =
        .ok (.errDict (notFoundMsg q))) ∧
      ∀ pre u v rest, l = pre ++ .obj u :: rest →
        pre.all (nonMatchObj (pyStrip (pyLower q))) = true →
        strContains (fullNameOf u) (pyStrip (pyLower q)) = true →
        List.lookup "CustomerID" u = some v →
        resolve_user_name_to_id q (some key) (.ok (dataBody l)) =
          .ok (.userId (pyStr v)) := by
  constructor
  · intro hall
    simp [resolve_user_name_to_id, h1, h2, dataBody, isTruthy,
      resolveScan_no_match _ _ _ hall]
  · intro pre u v rest hsplit hpre hm hk
    subst hsplit
    simp [resolve_user_name_to_id, h1, h2, dataBody, isTruthy,
      resolveScan_first_match _ _ _ _ _ _ hpre hm hk]

/-- Witness for C5 (amended): the first matching record's `CustomerID` is
returned (first conjunct exercised on a list with no match, second on a
list whose second element matches). -/
theorem claim_C5_witness :
    resolve_user_name_to_id "aviv" (some "k") (.ok (dataBody [])) =
        .ok (.errDict (notFoundMsg "aviv")) ∧
      resolve_user_name_to_id "aviv" (some "k")
          (.ok (dataBody [.obj [("first_name", .str "Dana")],
            .obj [("first_name", .str "Aviv"), ("last_name", .str "Weiss"),
              ("CustomerID", .num 8280)]])) =
        .ok (.userId "8280") :=
  ⟨(claim_C5_amended "aviv" "k" [] rfl rfl).1 rfl,
    (claim_C5_amended "aviv" "k" _ rfl rfl).2 [.obj [("first_name", .str "Dana")]]
      [("first_name", .str "Aviv"), ("last_name", .str "Weiss"),
        ("CustomerID", .num 8280)] (.num 8280) [] rfl rfl rfl rfl⟩

/-- Counterexample to claim C1 as stated: a recognized tool invocation with
well-formed string arguments, a configured key, and a 200 lookup response
whose data list holds a name-matching user record without a `CustomerID`
key makes the Execute step raise `KeyError` (uncaught), rather than
returning an `\x7b"error": ...\x7d` tool result. -/
theorem claim_C1_counterexample :
    executeTool
        ⟨"fetch_student_flights",
          [("user_identifier", .str "dana"), ("start_date", .str "2024-01-01"),
            ("end_date", .str "2024-12-31")]⟩
        ⟨some "k",
          .ok (dataBody [.obj [("first_name", .str "Dana"), ("last_name", .str "Levi"),
            ("id", .str "9")]]),
          .ok (.arr [])⟩ =
      .error (.keyError "CustomerID") ∧
    ∀ j, executeTool
        ⟨"fetch_student_flights",
          [("user_identifier", .str "dana"), ("start_date", .str "2024-01-01"),
            ("end_date", .str "2024-12-31")]⟩
        ⟨some "k",
          .ok (dataBody [.obj [("first_name", .str "Dana"), ("last_name", .str "Levi"),
            ("id", .str "9")]]),
          .ok (.arr [])⟩ ≠
      .ok j := by
  refine ⟨rfl, fun j h => ?_⟩
  rw [show executeTool
      ⟨"fetch_student_flights",
        [("user_identifier", .str "dana"), ("start_date", .str "2024-01-01"),
          ("end_date", .str "2024-12-31")]⟩
      ⟨some "k",
        .ok (dataBody [.obj [("first_name", .str "Dana"), ("last_name", .str "Levi"),
          ("id", .str "9")]]),
        .ok (.arr [])⟩ = Except.error (PyErr.keyError "CustomerID") from rfl] at h
  exact nomatch h

/-- Claim C1 (amended): for every tool invocation that is well formed for
the Execute step — any unknown tool name, or a `fetch_student_flights`
call whose kwargs bind with a string `user_identifier` and whose lookup
response body, when it is a truthy 200 body, is a dict whose data-list
elements are dicts carrying a `CustomerID` key whenever their name matches
the query — the Execute step never raises: it returns a tool result that
is either the `\x7b"error": ...\x7d` object wrapping the failure
(identifier-resolution failure, missing configuration, or a
network/validation failure reaching the flight service) or the flight
service's success body. -/
theorem claim_C1_amended (fc : FunctionCall) (env : AgentEnv)
    (h : wellFormedExec fc env = true) :
    ∃ j, executeTool fc env = .ok j ∧
      (isErrObj j = true ∨ env.megiddoNet = .ok j) := by
  unfold executeTool
  by_cases hn : fc.name == "fetch_student_flights"
  · simp only [wellFormedExec, hn, Bool.true_or] at h
    have hn' : (fc.name != "fetch_student_flights") = false := by
      simp only [bne, hn, Bool.not_true]
    rw [hn'] at h
    simp only [Bool.false_or] at h
    simp only [hn, if_true]
    cases hb : bindKwargs fc.args with
    | none => rw [hb] at h; exact absurd h (by simp)
    | some args =>
      obtain ⟨u, sd, ed⟩ := args
      rw [hb] at h
      cases u with
      | str s =>
        obtain ⟨r, hr⟩ := resolve_total s env.apiKey env.lookupNet h
        cases r with
        | errDict m =>
          exact ⟨errObj m, by simp [fetch_student_flights, hr], Or.inl rfl⟩
        | userId uid =>
          cases hm : env.megiddoNet with
          | exc m =>
            exact ⟨errObj ("API Request to Flight Service Failed: " ++ m),
              by simp [fetch_student_flights, hr, hm], Or.inl rfl⟩
          | ok body =>
            exact ⟨body, by simp [fetch_student_flights, hr, hm], Or.inr rfl⟩
      | null => exact absurd h (by simp)
      | bool b => exact absurd h (by simp)
      | num m => exact absurd h (by simp)
      | arr xs => exact absurd h (by simp)
      | obj o => exact absurd h (by simp)
  · simp only [hn, if_false]
    exact ⟨errObj ("Unknown function: " ++ fc.name), rfl, Or.inl rfl⟩

/-- Witness for C1 (amended) on a recognized call with a numeric
identifier whose lookup network is down (scan-safe by definition) and whose
flight-service call succeeds: the Execute step returns the service body. -/
theorem claim_C1_witness :
    ∃ j, executeTool
        ⟨"fetch_student_flights",
          [("user_identifier", .str "8280"), ("start_date", .str "2024-01-01"),
            ("end_date", .str "2024-12-31")]⟩
        ⟨some "k", .exc "lookup down", .ok (.obj [("flights", .arr [])])⟩ =
        .ok j ∧
      (isErrObj j = true ∨
        (HttpResult.ok (.obj [("flights", .arr [])]) : HttpResult) = .ok j) :=
  claim_C1_amended
    ⟨"fetch_student_flights",
      [("user_identifier", .str "8280"), ("start_date", .str "2024-01-01"),
        ("end_date", .str "2024-12-31")]⟩
    ⟨some "k", .exc "lookup down", .ok (.obj [("flights", .arr [])])⟩ rfl

/-- Claim C4 (confirmed): `GET /users/by-username`, over any upstream user
list (of well-typed user records) and any username, matches on trimmed
lower-cased email equality and yields: 404 `user_not_found` on zero
matches; 409 `multiple_users` on more than one; 500 `missing_user_id`
carrying the matched record's field names when the single match has no
extractable id; and a `UserIdResponse` when it has one. -/
theorem claim_C4_by_username (username : String) (l : List Json)
    (h : usersWellTyped l = true) :
    (matchedRecords (pyLower (pyStrip username)) l = [] →
      get_user_id_by_username username (.arr l) =
        .ok (.error ⟨404, userNotFoundDetail username⟩)) ∧
    (∀ u v rest, matchedRecords (pyLower (pyStrip username)) l = u :: v :: rest →
      get_user_id_by_username username (.arr l) =
        .ok (.error ⟨409, multipleUsersDetail username⟩)) ∧
    (∀ u, matchedRecords (pyLower (pyStrip username)) l = [u] →
      extract_user_id u = none →
      get_user_id_by_username username (.arr l) =
        .ok (.error ⟨500, missingUserIdDetail u⟩)) ∧
    (∀ u uid, matchedRecords (pyLower (pyStrip username)) l = [u] →
      extract_user_id u = some uid → uid.isEmpty = false →
      get_user_id_by_username username (.arr l) =
        .ok (.ok ⟨uid, some (buildNameD u), emailOptD u⟩)) := by
  have hfetch : fetch_flightcircle_users (Json.arr l) = .ok l := rfl
  have hms := byUsernameMatches_wt (pyLower (pyStrip username)) l h
  refine ⟨?_, ?_, ?_, ?_⟩
  · intro h0
    simp [get_user_id_by_username, hfetch, hms, h0]
  · intro u v rest h2
    simp [get_user_id_by_username, hfetch, hms, h2]
  · intro u h1 hid
    simp [get_user_id_by_username, hfetch, hms, h1, hid]
  · intro u uid h1 hid hne
    have hu : Json.obj u ∈ l := by
      refine matchedRecords_mem (pyLower (pyStrip username)) l u ?_
      rw [h1]
      exact List.mem_singleton.mpr rfl
    have hwt : wellTypedUser u = true := by
      have := List.all_eq_true.mp h _ hu
      simpa [elemWellTyped] using this
    simp only [wellTypedUser, Bool.and_eq_true] at hwt
    obtain ⟨⟨⟨hf, hl⟩, hm⟩, hp⟩ := hwt
    simp [get_user_id_by_username, hfetch, hms, h1, hid, hne,
      build_user_name_wt _ hf hl, asOptStr_email_wt _ hm]

/-- Witness for C4 exercising all four outcomes on concrete inputs: an
empty list (404), a two-match list (409), a single match without an id
field (500 with the record's keys), and a single match with
`CustomerID=7`. -/
theorem claim_C4_witness :
    get_user_id_by_username "n@x.io" (.arr []) =
        .ok (.error ⟨404, userNotFoundDetail "n@x.io"⟩) ∧
      get_user_id_by_username "n@x.io"
          (.arr [.obj [("email", .str "n@x.io")], .obj [("email", .str "n@x.io")]]) =
        .ok (.error ⟨409, multipleUsersDetail "n@x.io"⟩) ∧
      get_user_id_by_username "n@x.io" (.arr [.obj [("email", .str "n@x.io")]]) =
        .ok (.error ⟨500, missingUserIdDetail [("email", .str "n@x.io")]⟩) ∧
      get_user_id_by_username " N@x.io" (.arr [.obj [("email", .str "n@x.io"),
          ("first_name", .str "Noa"), ("CustomerID", .num 7)]]) =
        .ok (.ok ⟨"7", some "Noa", some "n@x.io"⟩) := by
  refine ⟨(claim_C4_by_username "n@x.io" [] rfl).1 rfl,
    (claim_C4_by_username "n@x.io"
      [.obj [("email", .str "n@x.io")], .obj [("email", .str "n@x.io")]] rfl).2.1
      [("email", .str "n@x.io")] [("email", .str "n@x.io")] [] rfl,
    (claim_C4_by_username "n@x.io" [.obj [("email", .str "n@x.io")]] rfl).2.2.1
      [("email", .str "n@x.io")] rfl rfl,
    ?_⟩
  have h := (claim_C4_by_username " N@x.io" [.obj [("email", .str "n@x.io"),
    ("first_name", .str "Noa"), ("CustomerID", .num 7)]] rfl).2.2.2
    [("email", .str "n@x.io"), ("first_name", .str "Noa"), ("CustomerID", .num 7)]
    "7" rfl rfl rfl
  simpa using h

/-- Claim C10 (confirmed): `GET /users/by-name` includes every matching
user even when the record has no extractable id — the match is returned
with `id = ""` — while `/users/by-username` answers 500
`missing_user_id` for a single email-match of the same kind. -/
theorem claim_C10_by_name_empty_id (name : String) (l : List Json) (u : Record)
    (h : usersWellTyped l = true) (hu : Json.obj u ∈ l)
    (hm : strContains (pyLower (buildNameD u)) (pyLower (pyStrip name)) = true)
    (hid : extract_user_id u = none) :
    (∃ users, get_user_by_name name (.arr l) = .ok (.ok users) ∧
      (⟨"", buildNameD u, emailOptD u, phoneOptD u⟩ : User) ∈ users) ∧
    get_user_id_by_username "x@y.z"
        (.arr [.obj [("email", .str "x@y.z"), ("first_name", .str "Noa")]]) =
      .ok (.error ⟨500,
        missingUserIdDetail [("email", .str "x@y.z"), ("first_name", .str "Noa")]⟩) := by
  constructor
  · refine ⟨l.filterMap (nameSpecFn (pyLower (pyStrip name))), ?_, ?_⟩
    · have hfetch : fetch_flightcircle_users (Json.arr l) = .ok l := rfl
      simp [get_user_by_name, hfetch, byNameCollect_wt _ _ h]
    · refine List.mem_filterMap.mpr ⟨.obj u, hu, ?_⟩
      simp [nameSpecFn, hm, hid]
  · rfl

/-- Witness for C10 at the concrete record `first_name="Noa"` with no id
field: the by-name match is returned with an empty id. -/
theorem claim_C10_witness :
    ∃ users,
      get_user_by_name "noa" (.arr [.obj [("first_name", .str "Noa"),
          ("email", .str "n@e.io")]]) = .ok (.ok users) ∧
        (⟨"", "Noa", some "n@e.io", none⟩ : User) ∈ users := by
  have h := (claim_C10_by_name_empty_id "noa"
    [.obj [("first_name", .str "Noa"), ("email", .str "n@e.io")]]
    [("first_name", .str "Noa"), ("email", .str "n@e.io")]
    rfl (List.mem_singleton.mpr rfl) rfl rfl).1
  simpa using h

/-- Claim C8 (confirmed): for the proxy's users, reservations, and flights
endpoints, a bare JSON list body and an object body whose `data` field
holds the same list produce identical endpoint results, and any other body
shape yields the 500 `invalid_response_format` error of the respective
endpoint. -/
theorem claim_C8_shape_tolerance (raw : Json) (h : isListShaped raw = false) :
    (∀ (nm : String) (l : List Json),
      get_user_by_name nm (.arr l) = get_user_by_name nm (dataBody l)) ∧
    (∀ (un : String) (l : List Json),
      get_user_id_by_username un (.arr l) = get_user_id_by_username un (dataBody l)) ∧
    (∀ l : List Json,
      get_reservations_by_user (.arr l) = get_reservations_by_user (dataBody l)) ∧
    (∀ l : List Json,
      get_flights_by_date (.arr l) = get_flights_by_date (dataBody l)) ∧
    (∀ nm : String, get_user_by_name nm raw = .ok (.error ⟨500, usersShapeDetail⟩)) ∧
    (∀ un : String,
      get_user_id_by_username un raw = .ok (.error ⟨500, usersShapeDetail⟩)) ∧
    get_reservations_by_user raw = .ok (.error ⟨500, reservationsShapeDetail⟩) ∧
    get_flights_by_date raw = .ok (.error ⟨500, flightsShapeDetail⟩) := by
  have hn := normalizeBody_none raw h
  refine ⟨fun nm l => rfl, fun un l => rfl, fun l => rfl, fun l => rfl,
    fun nm => ?_, fun un => ?_, ?_, ?_⟩
  · simp [get_user_by_name, fetch_flightcircle_users, hn]
  · simp [get_user_id_by_username, fetch_flightcircle_users, hn]
  · simp [get_reservations_by_user, hn]
  · simp [get_flights_by_date, hn]

/-- Witness for C8 at the non-list-shaped body `7` (and, via the equality
conjunct, at a concrete shared list). -/
theorem claim_C8_witness :
    get_user_by_name "x" (.num 7) = .ok (.error ⟨500, usersShapeDetail⟩) ∧
      get_reservations_by_user (.num 7) = .ok (.error ⟨500, reservationsShapeDetail⟩) ∧
      get_flights_by_date (.num 7) = .ok (.error ⟨500, flightsShapeDetail⟩) ∧
      get_user_by_name "x" (.arr []) = get_user_by_name "x" (dataBody []) := by
  have h := claim_C8_shape_tolerance (.num 7) rfl
  exact ⟨h.2.2.2.2.1 "x", h.2.2.2.2.2.2.1, h.2.2.2.2.2.2.2, h.1 "x" []⟩
